import Mathlib

/-!
Shallow embedding of `services/ml/ml_core/video_stream_pipeline.py`
(`KeyframeSelector` and `VideoStreamPipeline`) and proofs about it.

Conventions of the embedding:
* Machine floats (`f64`) are modelled as `ℚ`; the arithmetic the claims
  touch (time differences, threshold comparisons, running means of abs
  pixel differences) is exact.
* A grayscale thumbnail (the output of `KeyframeSelector._to_gray_thumb`,
  i.e. `cv2.cvtColor` + `cv2.resize`) is modelled as the flat list of its
  pixel intensities.  The conversion itself is a pure deterministic
  preprocessing step, so `check` is embedded directly on thumbnails:
  "identical frames" become equal thumbnails.
* `_compute_ssim` (Gaussian-blurred float64 SSIM) is kept abstract: every
  definition and theorem is parameterised over an arbitrary
  `ssim : Gray → Gray → ℚ`.  No claim depends on its numerical value —
  only on which branch of `check` consults it.
* `time.time()` is modelled by an explicit `wall : ℚ` parameter: the value
  the wall clock would return if the code read it during the call.
* External effects (`cv2.imdecode`, `CapturePipeline.run`) are modelled as
  oracle inputs: the decode result travels inside the `Jpeg` input, and the
  inference call's outcome (`Except Unit CaptureInference`, `.error` for a
  raised exception) is an argument of `process_next`.
-/

/-- A grayscale thumbnail: the flat list of its pixel intensities
(`0 ≤ p ≤ 255` in the code; the proofs need no range assumption). -/
abbrev Gray : Type := List ℚ

/-- Embeds `KeyframeSelector._mean_abs_diff`: mean absolute pixel difference of two
equal-sized thumbnails, normalised to the 0–1 scale by dividing by 255. -/
def mean_abs_diff (a b : Gray) : ℚ :=
  (((a.zip b).map fun p => |p.1 - p.2|).sum / (a.length : ℚ)) / 255

/-- The constructor arguments of `KeyframeSelector` (threshold configuration;
defaults as in the Python signature). -/
structure KeyframeSelector where
  ssim_threshold : ℚ := 85 / 100
  pixel_diff_threshold : ℚ := 6 / 100
  min_interval_s : ℚ := 1
  max_interval_s : ℚ := 10
deriving DecidableEq

/-- The mutable fields of `KeyframeSelector`: `_last_gray` and
`_last_keyframe_time`. -/
structure SelectorState where
  last_gray : Option Gray
  last_keyframe_time : ℚ
deriving DecidableEq

/-- Selector state right after `__init__` (or `reset`): no stored thumbnail,
`_last_keyframe_time = 0.0`. -/
def initSelector : SelectorState := { last_gray := none, last_keyframe_time := 0 }

/-- The effective timestamp used by `check`: Python's `now = now or time.time()`
replaces a missing argument — and also the falsy float `0.0` — by the wall
clock. -/
def effectiveNow (wall : ℚ) (now? : Option ℚ) : ℚ :=
  match now? with
  | none => wall
  | some t => if t = 0 then wall else t

/-- Embeds `KeyframeSelector.check(frame_bgr, now)`, state-passing style: returns the
accept decision together with the selector state after the call.  `gray` is
the grayscale thumbnail of `frame_bgr`, `ssim` abstracts `_compute_ssim`, and
`wall` is the value `time.time()` would yield during the call. -/
def KeyframeSelector.check (cfg : KeyframeSelector) (ssim : Gray → Gray → ℚ)
    (wall : ℚ) (st : SelectorState) (gray : Gray) (now? : Option ℚ) :
    Bool × SelectorState :=
  let now := effectiveNow wall now?
  match st.last_gray with
  | none =>
      -- First frame is always a keyframe.
      (true, { last_gray := some gray, last_keyframe_time := now })
  | some last =>
      let elapsed := now - st.last_keyframe_time
      if elapsed < cfg.min_interval_s then
        (false, st)
      else if cfg.max_interval_s ≤ elapsed then
        (true, { last_gray := some gray, last_keyframe_time := now })
      else
        let diff := mean_abs_diff gray last
        if diff < cfg.pixel_diff_threshold then
          (false, st)
        else
          let s := ssim gray last
          if cfg.ssim_threshold < s then
            (false, st)
          else
            (true, { last_gray := some gray, last_keyframe_time := now })

/-- Feed a list of `(thumbnail, now)` frames through `check`, collecting the
accept/reject decision of each call. -/
def runChecks (cfg : KeyframeSelector) (ssim : Gray → Gray → ℚ) (wall : ℚ) :
    SelectorState → List (Gray × Option ℚ) → List Bool
  | _, [] => []
  | st, (g, t) :: rest =>
      let r := cfg.check ssim wall st g t
      r.1 :: runChecks cfg ssim wall r.2 rest

/-- A stand-in for `_compute_ssim` used in concrete scenarios; the branches the
scenarios exercise never consult it. -/
def ssimConst : Gray → Gray → ℚ := fun _ _ => 1

/-- Embeds `FrameMeta`: metadata attached to every ingested frame. -/
structure FrameMeta where
  seq : ℕ
  timestamp : ℚ
  jpeg_size : ℕ
  is_keyframe : Bool := false
deriving DecidableEq

/-- One entry of `garment_summaries` (`{"garment_type": ..., "attributes": ...}`);
the attribute dict is abstracted to an association list. -/
structure GarmentSummary where
  garment_type : String
  attributes : List (String × String)
deriving DecidableEq

/-- A garment detection inside a `CaptureInference` (only the fields
`process_next` reads). -/
structure GarmentInference where
  garment_type : String
  attributes : List (String × String)
deriving DecidableEq

/-- The payload produced by the external `CapturePipeline.run`; only its
`garments` field is consumed here, the rest is opaque. -/
structure CaptureInference where
  garments : List GarmentInference
deriving DecidableEq

/-- Embeds `StreamResult`: payload returned to the client for each processed
keyframe. -/
structure StreamResult where
  seq : ℕ
  timestamp : ℚ
  inference : CaptureInference
  processing_ms : ℚ
  garment_summaries : List GarmentSummary
deriving DecidableEq

/-- Embeds `StreamStats` (the counters; the wall-clock-only fields `session_start`,
`uptime_s` and `effective_fps` are not modelled). -/
structure StreamStats where
  frames_received : ℕ := 0
  keyframes_detected : ℕ := 0
  frames_skipped : ℕ := 0
  avg_processing_ms : ℚ := 0
  last_keyframe_seq : ℤ := -1
deriving DecidableEq

/-- One buffered keyframe: the `(seq, timestamp, pil_image)` triple appended
to `_buffer`; the PIL image is represented by the decoded frame content. -/
abbrev BufItem : Type := ℕ × ℚ × Gray

/-- Embeds `collections.deque(maxlen := maxlen).append`: append on the right and, if
the deque would exceed `maxlen`, silently discard from the left so that only
the newest `maxlen` entries remain. -/
def dequePush {α : Type} (maxlen : ℕ) (buf : List α) (x : α) : List α :=
  let b := buf ++ [x]
  b.drop (b.length - maxlen)

/-- The mutable fields of `VideoStreamPipeline` (the selector's state, the
stats, `_buffer`, `_seq`, `_processing_times`).  The immutable configuration
(selector thresholds, `max_buffer`) and the external collaborators travel as
function arguments. -/
structure VideoStreamPipeline where
  selector : SelectorState
  stats : StreamStats
  buffer : List BufItem
  seq : ℕ
  processing_times : List ℚ
deriving DecidableEq

/-- Pipeline state right after `__init__` (or `reset`). -/
def initPipeline : VideoStreamPipeline :=
  { selector := initSelector, stats := {}, buffer := [], seq := 0,
    processing_times := [] }

/-- An ingested JPEG message: its byte length and the outcome of
`cv2.imdecode` (`none` when the bytes fail to decode; otherwise the decoded
frame, represented by its grayscale thumbnail content). -/
structure Jpeg where
  size : ℕ
  decoded : Option Gray
deriving DecidableEq

/-- Embeds `VideoStreamPipeline.ingest_jpeg`, state-passing style.  `now` is the
`time.time()` read at the top of the call (also handed to `check` as its
wall clock), `max_buffer` the deque capacity. -/
def ingest_jpeg (cfg : KeyframeSelector) (ssim : Gray → Gray → ℚ)
    (max_buffer : ℕ) (st : VideoStreamPipeline) (j : Jpeg) (now : ℚ) :
    FrameMeta × VideoStreamPipeline :=
  let seq := st.seq + 1
  let stats0 := { st.stats with frames_received := st.stats.frames_received + 1 }
  let meta : FrameMeta := { seq := seq, timestamp := now, jpeg_size := j.size }
  match j.decoded with
  | none =>
      -- Decode failed: count as skipped, ack with is_keyframe = false.
      (meta,
       { st with
         seq := seq,
         stats := { stats0 with frames_skipped := stats0.frames_skipped + 1 } })
  | some gray =>
      let r := cfg.check ssim now st.selector gray (some now)
      if r.1 then
        ({ meta with is_keyframe := true },
         { st with
           seq := seq,
           selector := r.2,
           stats := { stats0 with
                      keyframes_detected := stats0.keyframes_detected + 1,
                      last_keyframe_seq := (seq : ℤ) },
           buffer := dequePush max_buffer st.buffer (seq, now, gray) })
      else
        (meta,
         { st with
           seq := seq,
           selector := r.2,
           stats := { stats0 with frames_skipped := stats0.frames_skipped + 1 } })

/-- Embeds `VideoStreamPipeline.process_next`, state-passing style.  `outcome` is the
result of the external `self.pipeline.run(pil_image)` call (`.error` when it
raises) and `elapsed_ms` the measured latency of that call. -/
def process_next (st : VideoStreamPipeline)
    (outcome : Except Unit CaptureInference) (elapsed_ms : ℚ) :
    Option StreamResult × VideoStreamPipeline :=
  match st.buffer with
  | [] => (none, st)
  | (seq, ts, _img) :: rest =>
      match outcome with
      | .error _ =>
          -- Inference raised: log and drop the frame, no result.
          (none, { st with buffer := rest })
      | .ok inference =>
          let times := dequePush 50 st.processing_times elapsed_ms
          let avg := times.sum / (times.length : ℚ)
          let result : StreamResult :=
            { seq := seq, timestamp := ts, inference := inference,
              processing_ms := elapsed_ms,
              garment_summaries := inference.garments.map fun g =>
                { garment_type := g.garment_type, attributes := g.attributes } }
          (some result,
           { st with
             buffer := rest,
             processing_times := times,
             stats := { st.stats with avg_processing_ms := avg } })

/-- One session event: either an inbound frame (with the wall-clock time of
its arrival) or one `process_next` call (with the oracle outcome of the
inference call and its measured latency). -/
inductive StreamOp : Type
  | ingest (j : Jpeg) (now : ℚ)
  | process (outcome : Except Unit CaptureInference) (elapsed_ms : ℚ)

/-- Run a sequence of session events, collecting every emitted
`StreamResult` in order. -/
def runOps (cfg : KeyframeSelector) (ssim : Gray → Gray → ℚ) (max_buffer : ℕ) :
    VideoStreamPipeline → List StreamOp → VideoStreamPipeline × List StreamResult
  | st, [] => (st, [])
  | st, StreamOp.ingest j now :: ops =>
      runOps cfg ssim max_buffer (ingest_jpeg cfg ssim max_buffer st j now).2 ops
  | st, StreamOp.process oc e :: ops =>
      let r := process_next st oc e
      let rest := runOps cfg ssim max_buffer r.2 ops
      (rest.1, r.1.toList ++ rest.2)

/-- Ingest a list of frames, collecting the returned `FrameMeta`s in order. -/
def ingestAll (cfg : KeyframeSelector) (ssim : Gray → Gray → ℚ)
    (max_buffer : ℕ) :
    VideoStreamPipeline → List (Jpeg × ℚ) → List FrameMeta × VideoStreamPipeline
  | st, [] => ([], st)
  | st, (j, now) :: rest =>
      let r := ingest_jpeg cfg ssim max_buffer st j now
      let rr := ingestAll cfg ssim max_buffer r.2 rest
      (r.1 :: rr.1, rr.2)

/-- Embeds `sum(self._processing_times) / len(self._processing_times)`: the rolling
average recomputed by `process_next` after appending a sample. -/
def windowMean (l : List ℚ) : ℚ := l.sum / (l.length : ℚ)

/-- The four-frame scenario of the spec's keyframe test: a solid mid-gray
thumbnail (intensity 128) at `t = 0`, the identical thumbnail at `t = 0.5`
and `t = 11`, and its colour inverse (intensity `255 - 128 = 127`) at
`t = 11.5`. -/
def c1Frames : List (Gray × Option ℚ) :=
  [(List.replicate 4 128, some 0), (List.replicate 4 128, some (1 / 2)),
   (List.replicate 4 128, some 11), (List.replicate 4 127, some (23 / 2))]

/-- Three distinct decodable frames, timed so that the default selector
accepts all three (the second and third arrive past `max_interval_s`). -/
def cap2Frames : List (Jpeg × ℚ) :=
  [(⟨100, some [10]⟩, 1), (⟨100, some [20]⟩, 20), (⟨100, some [30]⟩, 40)]

/-- The pipeline state after ingesting `cap2Frames` with `max_buffer = 2`
and no intervening `process_next` call. -/
def cap2Pipeline : VideoStreamPipeline :=
  (ingestAll {} ssimConst 2 initPipeline cap2Frames).2

/-- A pipeline state holding two buffered keyframes, used to exercise the
inference-failure path of `process_next`. -/
def twoBufState : VideoStreamPipeline :=
  { initPipeline with buffer := [(1, 0, [1]), (2, 1, [2])] }

/-! ### Helper lemmas -/

theorem mean_abs_diff_self (g : Gray) : mean_abs_diff g g = 0 := by
  have h : ((g.zip g).map fun p => |p.1 - p.2|).sum = 0 := by
    induction g with
    | nil => simp
    | cons a t ih => simp [ih]
  simp [mean_abs_diff, h]

/-! ### Keyframe selector claims -/

/-- C6: every `check` call that returns `False` leaves the selector state —
stored reference thumbnail and last keyframe time — exactly unchanged; the
state is mutated only on accepting calls. -/
theorem check_mutates_only_on_accept
    (cfg : KeyframeSelector) (ssim : Gray → Gray → ℚ) (wall : ℚ)
    (st : SelectorState) (gray : Gray) (now? : Option ℚ)
    (h : (cfg.check ssim wall st gray now?).1 = false) :
    (cfg.check ssim wall st gray now?).2 = st := by
  unfold KeyframeSelector.check at h ⊢
  cases hg : st.last_gray with
  | none => simp [hg] at h
  | some last =>
      simp only [hg] at h ⊢
      split_ifs at h ⊢ <;> simp_all

/-- C6 witness: a concrete rejected call (within the minimum interval) whose
state is returned unchanged. -/
theorem check_mutates_only_on_accept_witness :
    (KeyframeSelector.check {} ssimConst 0
        { last_gray := some [5], last_keyframe_time := 10 } [6] (some 10)).1 = false
    ∧ (KeyframeSelector.check {} ssimConst 0
        { last_gray := some [5], last_keyframe_time := 10 } [6] (some 10)).2 =
      { last_gray := some [5], last_keyframe_time := 10 } :=
  ⟨by norm_num [KeyframeSelector.check, effectiveNow],
   check_mutates_only_on_accept {} ssimConst 0
     { last_gray := some [5], last_keyframe_time := 10 } [6] (some 10)
     (by norm_num [KeyframeSelector.check, effectiveNow])⟩

/-- C4: when the selector holds a stored reference thumbnail and
`min_interval_s ≤ max_interval_s`, a frame whose elapsed time since the last
keyframe is at least `max_interval_s` is accepted unconditionally — whatever
the thumbnail and whatever the similarity function — and the state is updated
to the new thumbnail and timestamp. -/
theorem check_accepts_after_max_interval
    (cfg : KeyframeSelector) (ssim : Gray → Gray → ℚ) (wall : ℚ)
    (st : SelectorState) (gray last : Gray) (now? : Option ℚ)
    (hlast : st.last_gray = some last)
    (hcfg : cfg.min_interval_s ≤ cfg.max_interval_s)
    (hel : cfg.max_interval_s ≤ effectiveNow wall now? - st.last_keyframe_time) :
    cfg.check ssim wall st gray now? =
      (true, { last_gray := some gray,
               last_keyframe_time := effectiveNow wall now? }) := by
  unfold KeyframeSelector.check
  simp only [hlast]
  rw [if_neg (not_lt.mpr (hcfg.trans hel)), if_pos hel]

/-- C4 witness: with the default thresholds, a frame 12 s after the last
keyframe is accepted and becomes the new reference. -/
theorem check_accepts_after_max_interval_witness :
    ({} : KeyframeSelector).max_interval_s
        ≤ effectiveNow 0 (some 12)
            - ({ last_gray := some [5], last_keyframe_time := 0 } :
                SelectorState).last_keyframe_time
    ∧ KeyframeSelector.check {} ssimConst 0
        { last_gray := some [5], last_keyframe_time := 0 } [7] (some 12) =
      (true, { last_gray := some [7],
               last_keyframe_time := effectiveNow 0 (some 12) }) :=
  ⟨by norm_num [effectiveNow],
   check_accepts_after_max_interval {} ssimConst 0
     { last_gray := some [5], last_keyframe_time := 0 } [7] [5] (some 12) rfl
     (by norm_num) (by norm_num [effectiveNow])⟩

/-- C5: with `pixel_diff_threshold > 0` and `min_interval_s < max_interval_s`,
a frame identical to the stored reference and arriving at most
`min_interval_s` after the last accepted keyframe is rejected (by the
rate limit when strictly inside the interval, by the zero pixel difference at
the boundary). -/
theorem check_rejects_identical_within_min_interval
    (cfg : KeyframeSelector) (ssim : Gray → Gray → ℚ) (wall t₁ : ℚ)
    (g : Gray) (now? : Option ℚ)
    (hpd : 0 < cfg.pixel_diff_threshold)
    (hmm : cfg.min_interval_s < cfg.max_interval_s)
    (harr : effectiveNow wall now? - t₁ ≤ cfg.min_interval_s) :
    (cfg.check ssim wall
        { last_gray := some g, last_keyframe_time := t₁ } g now?).1 = false := by
  unfold KeyframeSelector.check
  simp only
  by_cases h1 : effectiveNow wall now? - t₁ < cfg.min_interval_s
  · rw [if_pos h1]
  · rw [if_neg h1,
      if_neg (not_le.mpr (lt_of_le_of_lt harr hmm)),
      if_pos (show mean_abs_diff g g < cfg.pixel_diff_threshold by
        rw [mean_abs_diff_self]; exact hpd)]

/-- C5 witness: with the default thresholds, the same thumbnail resubmitted
half a second after its acceptance is rejected. -/
theorem check_rejects_identical_within_min_interval_witness :
    (0:ℚ) < ({} : KeyframeSelector).pixel_diff_threshold
    ∧ (KeyframeSelector.check {} ssimConst 0
        { last_gray := some [9], last_keyframe_time := 1 } [9] (some (3/2))).1
        = false :=
  ⟨by norm_num,
   check_rejects_identical_within_min_interval {} ssimConst 0 1 [9] (some (3/2))
     (by norm_num) (by norm_num) (by norm_num [effectiveNow])⟩

/-- C10: `check` treats a falsy explicit timestamp as absent — `now = 0.0`
behaves exactly like not passing `now`, both substituting the wall clock —
while any strictly positive `now` is used as given (the wall clock is then
irrelevant to the outcome). -/
theorem check_now_falsy_substitution :
    (∀ (cfg : KeyframeSelector) (ssim : Gray → Gray → ℚ) (wall : ℚ)
        (st : SelectorState) (gray : Gray),
        cfg.check ssim wall st gray (some 0) = cfg.check ssim wall st gray none)
    ∧ (∀ wall : ℚ, effectiveNow wall (some 0) = wall)
    ∧ (∀ wall wall' t : ℚ, 0 < t →
        ∀ (cfg : KeyframeSelector) (ssim : Gray → Gray → ℚ)
          (st : SelectorState) (gray : Gray),
          cfg.check ssim wall st gray (some t) =
            cfg.check ssim wall' st gray (some t)) := by
  refine ⟨?_, ?_, ?_⟩
  · intro cfg ssim wall st gray
    unfold KeyframeSelector.check
    rw [show effectiveNow wall (some 0) = effectiveNow wall none by
      simp [effectiveNow]]
  · intro wall
    simp [effectiveNow]
  · intro wall wall' t ht cfg ssim st gray
    unfold KeyframeSelector.check
    rw [show effectiveNow wall (some t) = effectiveNow wall' (some t) by
      simp [effectiveNow, ht.ne']]

/-- C10 witness: a strictly positive explicit timestamp makes the outcome
independent of the wall clock. -/
theorem check_now_falsy_substitution_witness :
    (0:ℚ) < 5
    ∧ KeyframeSelector.check {} ssimConst 3 initSelector [1] (some 5) =
        KeyframeSelector.check {} ssimConst 77 initSelector [1] (some 5) :=
  ⟨by norm_num,
   check_now_falsy_substitution.2.2 3 77 5 (by norm_num) {} ssimConst
     initSelector [1]⟩

/-- C1 counterexample: the spec's four-frame scenario does **not** yield the
claimed accept pattern `[true, false, true, true]` — run with the default
thresholds (and wall clock 0, which the code substitutes for the falsy
`t = 0`), the fourth frame is rejected. -/
theorem c1_scenario_counterexample :
    runChecks {} ssimConst 0 initSelector c1Frames
      ≠ [true, false, true, true] := by
  norm_num [c1Frames, runChecks, KeyframeSelector.check, effectiveNow,
    initSelector]

/-- C1 (amended): the four-frame scenario yields 2 of 4 frames accepted —
`check` returns `True` for frames 1 (first frame) and 3 (max interval
elapsed) and `False` for frames 2 and 4: frame 3's forced acceptance resets
the last-keyframe time, so frame 4 at `t = 11.5` falls inside the minimum
interval and is rejected before any similarity computation. -/
theorem c1_scenario_two_of_four :
    runChecks {} ssimConst 0 initSelector c1Frames
      = [true, false, true, false] := by
  norm_num [c1Frames, runChecks, KeyframeSelector.check, effectiveNow,
    initSelector]

/-! ### Pipeline helper lemmas -/

theorem dequePush_length {α : Type} (N : ℕ) (buf : List α) (x : α) :
    (dequePush N buf x).length = min (buf.length + 1) N := by
  simp only [dequePush, List.length_drop, List.length_append,
    List.length_cons, List.length_nil]
  omega

theorem dequePush_length_le {α : Type} (N : ℕ) (buf : List α) (x : α) :
    (dequePush N buf x).length ≤ N := by
  rw [dequePush_length]; omega

theorem dequePush_eq_rtake {α : Type} (N : ℕ) (buf : List α) (x : α) :
    dequePush N buf x = (buf ++ [x]).rtake N := rfl

theorem rtake_append_rtake {α : Type} (n : ℕ) (a b : List α) :
    ((a.rtake n) ++ b).rtake n = (a ++ b).rtake n := by
  simp only [List.rtake_eq_reverse_take_reverse, List.reverse_append,
    List.reverse_reverse, List.take_append_eq_append_take, List.take_take,
    List.length_reverse]
  rw [Nat.min_eq_left (Nat.sub_le n b.length)]

theorem ingest_jpeg_seq_eq (cfg : KeyframeSelector) (ssim : Gray → Gray → ℚ)
    (N : ℕ) (st : VideoStreamPipeline) (j : Jpeg) (now : ℚ) :
    ((ingest_jpeg cfg ssim N st j now).1).seq = st.seq + 1
    ∧ ((ingest_jpeg cfg ssim N st j now).2).seq = st.seq + 1 := by
  unfold ingest_jpeg
  cases hd : j.decoded with
  | none => simp
  | some gray =>
      dsimp only
      split_ifs <;> simp

theorem ingest_jpeg_times_avg (cfg : KeyframeSelector) (ssim : Gray → Gray → ℚ)
    (N : ℕ) (st : VideoStreamPipeline) (j : Jpeg) (now : ℚ) :
    ((ingest_jpeg cfg ssim N st j now).2).processing_times = st.processing_times
    ∧ ((ingest_jpeg cfg ssim N st j now).2).stats.avg_processing_ms
        = st.stats.avg_processing_ms := by
  unfold ingest_jpeg
  cases hd : j.decoded with
  | none => simp
  | some gray =>
      dsimp only
      split_ifs <;> simp

theorem ingest_jpeg_buffer_le (cfg : KeyframeSelector) (ssim : Gray → Gray → ℚ)
    (N : ℕ) (st : VideoStreamPipeline) (j : Jpeg) (now : ℚ)
    (h : st.buffer.length ≤ N) :
    ((ingest_jpeg cfg ssim N st j now).2).buffer.length ≤ N := by
  unfold ingest_jpeg
  cases hd : j.decoded with
  | none => simpa using h
  | some gray =>
      dsimp only
      split_ifs <;> simp [dequePush_length_le, h]

theorem process_next_empty (st : VideoStreamPipeline)
    (oc : Except Unit CaptureInference) (e : ℚ) (hb : st.buffer = []) :
    process_next st oc e = (none, st) := by
  unfold process_next
  simp only [hb]

theorem process_next_error (st : VideoStreamPipeline) (s : ℕ) (t : ℚ) (g : Gray)
    (rest : List BufItem) (u : Unit) (e : ℚ) (hb : st.buffer = (s, t, g) :: rest) :
    process_next st (Except.error u) e = (none, { st with buffer := rest }) := by
  unfold process_next
  simp only [hb]

theorem process_next_success (st : VideoStreamPipeline) (s : ℕ) (t : ℚ) (g : Gray)
    (rest : List BufItem) (inf : CaptureInference) (e : ℚ)
    (hb : st.buffer = (s, t, g) :: rest) :
    process_next st (Except.ok inf) e =
      (some { seq := s, timestamp := t, inference := inf, processing_ms := e,
              garment_summaries := inf.garments.map fun gi =>
                { garment_type := gi.garment_type, attributes := gi.attributes } },
       { st with
         buffer := rest,
         processing_times := dequePush 50 st.processing_times e,
         stats := { st.stats with
                    avg_processing_ms :=
                      windowMean (dequePush 50 st.processing_times e) } }) := by
  unfold process_next
  simp only [hb, windowMean, dequePush]

theorem process_next_buffer_le (st : VideoStreamPipeline)
    (oc : Except Unit CaptureInference) (e : ℚ) (N : ℕ)
    (h : st.buffer.length ≤ N) :
    ((process_next st oc e).2).buffer.length ≤ N := by
  cases hb : st.buffer with
  | nil => rw [process_next_empty st oc e hb]; simpa using h
  | cons it tail =>
      obtain ⟨s, t, g⟩ := it
      have hlen : tail.length + 1 = st.buffer.length := by rw [hb]; rfl
      cases oc with
      | error u =>
          rw [process_next_error st s t g tail u e hb]
          show tail.length ≤ N
          omega
      | ok inf =>
          rw [process_next_success st s t g tail inf e hb]
          show tail.length ≤ N
          omega

theorem runOps_buffer_le (cfg : KeyframeSelector) (ssim : Gray → Gray → ℚ)
    (N : ℕ) :
    ∀ (ops : List StreamOp) (st : VideoStreamPipeline),
      st.buffer.length ≤ N → ((runOps cfg ssim N st ops).1).buffer.length ≤ N := by
  intro ops
  induction ops with
  | nil => intro st h; simpa [runOps] using h
  | cons op rest ih =>
      intro st h
      cases op with
      | ingest j now =>
          simpa [runOps] using ih _ (ingest_jpeg_buffer_le cfg ssim N st j now h)
      | process oc e =>
          simpa [runOps] using ih _ (process_next_buffer_le st oc e N h)

theorem runOps_window_invariant (cfg : KeyframeSelector)
    (ssim : Gray → Gray → ℚ) (N : ℕ) :
    ∀ (ops : List StreamOp) (st : VideoStreamPipeline) (samples : List ℚ),
      st.processing_times = samples.rtake 50 →
      st.stats.avg_processing_ms
          = (if samples.isEmpty then 0 else windowMean (samples.rtake 50)) →
      ((runOps cfg ssim N st ops).1).processing_times
          = (samples
              ++ ((runOps cfg ssim N st ops).2).map StreamResult.processing_ms).rtake 50
      ∧ ((runOps cfg ssim N st ops).1).stats.avg_processing_ms
          = (if (samples
                  ++ ((runOps cfg ssim N st ops).2).map
                      StreamResult.processing_ms).isEmpty
             then 0
             else windowMean ((samples
                  ++ ((runOps cfg ssim N st ops).2).map
                      StreamResult.processing_ms).rtake 50)) := by
  intro ops
  induction ops with
  | nil =>
      intro st samples h1 h2
      constructor
      · simpa [runOps] using h1
      · simpa [runOps] using h2
  | cons op rest ih =>
      intro st samples h1 h2
      cases op with
      | ingest j now =>
          have hp := ingest_jpeg_times_avg cfg ssim N st j now
          have hrec := ih (ingest_jpeg cfg ssim N st j now).2 samples
            (hp.1.trans h1) (hp.2.trans h2)
          simpa [runOps] using hrec
      | process oc e =>
          cases hb : st.buffer with
          | nil =>
              have hpn := process_next_empty st oc e hb
              have hrec := ih st samples h1 h2
              simpa [runOps, hpn] using hrec
          | cons it tail =>
              obtain ⟨s, t, g⟩ := it
              cases oc with
              | error u =>
                  have hpe := process_next_error st s t g tail u e hb
                  have hrec := ih { st with buffer := tail } samples h1 h2
                  simpa [runOps, hpe] using hrec
              | ok inf =>
                  have hps := process_next_success st s t g tail inf e hb
                  set st' : VideoStreamPipeline :=
                    { st with
                      buffer := tail,
                      processing_times := dequePush 50 st.processing_times e,
                      stats := { st.stats with
                        avg_processing_ms :=
                          windowMean (dequePush 50 st.processing_times e) } }
                    with hst'
                  have htimes : st'.processing_times = (samples ++ [e]).rtake 50 := by
                    show dequePush 50 st.processing_times e = (samples ++ [e]).rtake 50
                    rw [dequePush_eq_rtake, h1, rtake_append_rtake]
                  have havg : st'.stats.avg_processing_ms
                      = (if (samples ++ [e]).isEmpty then 0
                         else windowMean ((samples ++ [e]).rtake 50)) := by
                    show windowMean (dequePush 50 st.processing_times e) = _
                    rw [dequePush_eq_rtake, h1, rtake_append_rtake]
                    simp
                  have hrec := ih st' (samples ++ [e]) htimes havg
                  simp only [runOps, hps]
                  simpa using hrec

theorem cap2Pipeline_buffer :
    cap2Pipeline.buffer = [(2, 20, [20]), (3, 40, [30])] := by
  norm_num [cap2Pipeline, cap2Frames, ingestAll, ingest_jpeg,
    KeyframeSelector.check, effectiveNow, initPipeline, initSelector,
    dequePush, ssimConst]

/-! ### Pipeline claims -/

/-- C2: the keyframe buffer never exceeds its capacity `N` under any sequence
of ingest and process operations; a push at capacity is non-blocking and
evicts exactly the single oldest entry; popping an empty buffer returns
nothing; and at capacity 2, ingesting three accepted keyframes leaves depth 2
with the first-pushed keyframe (seq 1) no longer retrievable. -/
theorem buffer_capacity_invariant :
    (∀ (cfg : KeyframeSelector) (ssim : Gray → Gray → ℚ) (N : ℕ)
        (ops : List StreamOp),
        ((runOps cfg ssim N initPipeline ops).1).buffer.length ≤ N)
    ∧ (∀ (N : ℕ) (buf : List BufItem) (x : BufItem),
        buf.length = N → 0 < N → dequePush N buf x = buf.tail ++ [x])
    ∧ (∀ (st : VideoStreamPipeline) (oc : Except Unit CaptureInference) (e : ℚ),
        st.buffer = [] → (process_next st oc e).1 = none)
    ∧ cap2Pipeline.buffer.length = 2
    ∧ (∀ it ∈ cap2Pipeline.buffer, it.1 ≠ 1) := by
  refine ⟨?_, ?_, ?_, ?_, ?_⟩
  · intro cfg ssim N ops
    exact runOps_buffer_le cfg ssim N ops initPipeline (by simp [initPipeline])
  · intro N buf x hlen hpos
    have h1 : (buf ++ [x]).length - N = 1 := by
      rw [List.length_append, hlen]; simp
    show (buf ++ [x]).drop ((buf ++ [x]).length - N) = buf.tail ++ [x]
    rw [h1, List.drop_append_of_le_length (by omega), List.drop_one]
  · intro st oc e h
    rw [process_next_empty st oc e h]
  · rw [cap2Pipeline_buffer]
    rfl
  · intro it hit
    rw [cap2Pipeline_buffer] at hit
    simp only [List.mem_cons, List.not_mem_nil, or_false] at hit
    rcases hit with rfl | rfl <;> decide

/-- C2 witness: a push at capacity 2 evicting the oldest entry, and a pop of
the empty initial buffer returning nothing. -/
theorem buffer_capacity_invariant_witness :
    dequePush 2 [(1, (1:ℚ), ([10]:Gray)), (2, 2, [20])] (3, 3, [30])
        = [(1, (1:ℚ), ([10]:Gray)), (2, 2, [20])].tail ++ [(3, 3, [30])]
    ∧ (process_next initPipeline (Except.error ()) 0).1 = none :=
  ⟨buffer_capacity_invariant.2.1 2 [(1, (1:ℚ), ([10]:Gray)), (2, 2, [20])]
      (3, 3, [30]) rfl (by decide),
   buffer_capacity_invariant.2.2.1 initPipeline (Except.error ()) 0 rfl⟩

theorem ingestAll_seq_range (cfg : KeyframeSelector) (ssim : Gray → Gray → ℚ)
    (N : ℕ) :
    ∀ (frames : List (Jpeg × ℚ)) (st : VideoStreamPipeline),
      ((ingestAll cfg ssim N st frames).1).map FrameMeta.seq
        = List.range' (st.seq + 1) frames.length := by
  intro frames
  induction frames with
  | nil => intro st; simp [ingestAll]
  | cons f rest ih =>
      intro st
      obtain ⟨j, now⟩ := f
      have h := ingest_jpeg_seq_eq cfg ssim N st j now
      simp only [ingestAll, List.map_cons, List.length_cons, List.range'_succ]
      rw [h.1, ih _, h.2]

/-- C3: for every sequence of `N` ingested frames in one session — whether or
not each decodes or is selected — the returned `FrameMeta.seq` values are
exactly `1, 2, ..., N` in arrival order (the sequence number is consumed
before the decode is attempted, so undecodable frames get one too). -/
theorem ingest_seq_numbers_exact (cfg : KeyframeSelector)
    (ssim : Gray → Gray → ℚ) (N : ℕ) (frames : List (Jpeg × ℚ)) :
    ((ingestAll cfg ssim N initPipeline frames).1).map FrameMeta.seq
      = List.range' 1 frames.length := by
  simpa [initPipeline] using ingestAll_seq_range cfg ssim N frames initPipeline

/-- C7: after any sequence of session events, `_processing_times` holds
exactly the latencies of the most recent at-most-50 emitted results (the
successfully processed keyframes), and `avg_processing_ms` is their
arithmetic mean (`0`, its initial value, while no result has been emitted);
failed inference calls emit no result and so contribute no sample. -/
theorem avg_processing_ms_window (cfg : KeyframeSelector)
    (ssim : Gray → Gray → ℚ) (N : ℕ) (ops : List StreamOp) :
    ((runOps cfg ssim N initPipeline ops).1).processing_times
        = (((runOps cfg ssim N initPipeline ops).2).map
            StreamResult.processing_ms).rtake 50
    ∧ ((runOps cfg ssim N initPipeline ops).1).stats.avg_processing_ms
        = (if ((runOps cfg ssim N initPipeline ops).2).isEmpty then 0
           else windowMean ((((runOps cfg ssim N initPipeline ops).2).map
                  StreamResult.processing_ms).rtake 50)) := by
  have h := runOps_window_invariant cfg ssim N ops initPipeline []
    (by simp [initPipeline]) (by simp [initPipeline])
  simpa using h

/-- C8: when the inference pipeline raises during `process_next`, no result
is produced, the popped keyframe is dropped for good (only the buffer loses
its head), and the stats and latency window are untouched, so the session
continues with the next buffered item. -/
theorem process_next_failure_drops_frame (st : VideoStreamPipeline)
    (item : BufItem) (rest : List BufItem) (u : Unit) (e : ℚ)
    (hb : st.buffer = item :: rest) :
    process_next st (Except.error u) e = (none, { st with buffer := rest })
    ∧ ({ st with buffer := rest } : VideoStreamPipeline).stats = st.stats
    ∧ ({ st with buffer := rest } : VideoStreamPipeline).processing_times
        = st.processing_times := by
  obtain ⟨s, t, g⟩ := item
  exact ⟨process_next_error st s t g rest u e hb, rfl, rfl⟩

/-- C8 witness: a failing inference on a two-deep buffer drops the head only. -/
theorem process_next_failure_drops_frame_witness :
    process_next twoBufState (Except.error ()) 5
        = (none, { twoBufState with buffer := [(2, 1, [2])] })
    ∧ ({ twoBufState with buffer := [(2, 1, [2])] } : VideoStreamPipeline).stats
        = twoBufState.stats
    ∧ ({ twoBufState with buffer := [(2, 1, [2])] } :
          VideoStreamPipeline).processing_times
        = twoBufState.processing_times :=
  process_next_failure_drops_frame twoBufState (1, 0, [1]) [(2, 1, [2])] () 5 rfl

/-- C9: `ingest_jpeg` is total — every byte input yields a `FrameMeta` — and
on decode failure the metadata is `is_keyframe = false` with the next
sequence number, `frames_received` and `frames_skipped` are both incremented,
and the selector state and keyframe buffer are untouched. -/
theorem ingest_jpeg_decode_failure (cfg : KeyframeSelector)
    (ssim : Gray → Gray → ℚ) (N : ℕ) (st : VideoStreamPipeline) (j : Jpeg)
    (now : ℚ) (hd : j.decoded = none) :
    ingest_jpeg cfg ssim N st j now =
      ({ seq := st.seq + 1, timestamp := now, jpeg_size := j.size,
         is_keyframe := false },
       { st with
         seq := st.seq + 1,
         stats := { st.stats with
                    frames_received := st.stats.frames_received + 1,
                    frames_skipped := st.stats.frames_skipped + 1 } }) := by
  unfold ingest_jpeg
  simp only [hd]

/-- C9 witness: ingesting 17 undecodable bytes into a fresh session. -/
theorem ingest_jpeg_decode_failure_witness :
    ingest_jpeg {} ssimConst 8 initPipeline ⟨17, none⟩ 3 =
      ({ seq := initPipeline.seq + 1, timestamp := 3,
         jpeg_size := (⟨17, none⟩ : Jpeg).size, is_keyframe := false },
       { initPipeline with
         seq := initPipeline.seq + 1,
         stats := { initPipeline.stats with
                    frames_received := initPipeline.stats.frames_received + 1,
                    frames_skipped := initPipeline.stats.frames_skipped + 1 } }) :=
  ingest_jpeg_decode_failure {} ssimConst 8 initPipeline ⟨17, none⟩ 3 rfl
